import Mathlib

/-!
Verification of `tagger.py` (tadpoles_downloader).

A shallow embedding of the EXIF-tagging tool `tagger.py`.  Python floats
are modelled as exact rationals (`ℚ`): every numeric literal the program
handles is a finite decimal, and all the arithmetic the claims concern is
exact at that granularity.  Python `dict`s are modelled as ordered
association lists, Python exceptions as `Except` values, and the absent /
`None` distinction as `Option`.
-/

namespace Tagger

/-! Python numeric primitives -/

/-- Python `int(x)` on a float: truncation toward zero. -/
def pyInt (x : ℚ) : ℤ := if x < 0 then ⌈x⌉ else ⌊x⌋

/-- Python `round(x)` rounding step: round half to even (banker's
rounding) to the nearest integer. -/
def pyRound (x : ℚ) : ℤ :=
  if x - ⌊x⌋ < 1/2 then ⌊x⌋
  else if x - ⌊x⌋ > 1/2 then ⌊x⌋ + 1
  else if 2 ∣ ⌊x⌋ then ⌊x⌋ else ⌊x⌋ + 1

/-- Python `round(x, 5)`: round to 5 decimal places (half to even). -/
def round5 (x : ℚ) : ℚ := (pyRound (x * 100000) : ℚ) / 100000

/-! Coordinate converter: `to_deg` and `change_to_rational` -/

/-- Function `to_deg(value, loc)` from `tagger.py` (lines 21-41): convert a decimal
coordinate into a `(degrees, minutes, seconds, direction)` tuple.
`loc` is the two-element label list `[negativeLabel, positiveLabel]`;
callers always pass two labels (Python would raise `IndexError` on a
shorter list, which is not modelled: out-of-range indexing defaults
to `""`). -/
def to_deg (value : ℚ) (loc : List String) : ℤ × ℤ × ℚ × String :=
  let loc_value : String :=
    if value < 0 then loc.getD 0 ""
    else if value > 0 then loc.getD 1 ""
    else ""
  let abs_value := |value|
  let deg := pyInt abs_value
  let t1 := (abs_value - (deg : ℚ)) * 60
  let min := pyInt t1
  let sec := round5 ((t1 - (min : ℚ)) * 60)
  (deg, min, sec, loc_value)

/-- Function `change_to_rational(number)` from `tagger.py` (lines 44-53):
`Fraction(str(number))` builds the exact fraction, in lowest terms, of the
decimal string of `number`.  In the model a number of decimal provenance
is already an exact rational, and `str`/`Fraction` round-trip it to its
reduced numerator/denominator pair (a Lean `Rat` is stored reduced with a
positive denominator, exactly the `Fraction` normal form). -/
def change_to_rational (number : ℚ) : ℤ × ℕ := (number.num, number.den)

/-! GPS block builder: `create_gps_block` -/

/-- EXIF values as stored in the modelled IFD dictionaries. -/
inductive ExifVal
  | str (s : String)
  | int (n : ℤ)
  | rat (r : ℤ × ℕ)
  | ratTriple (a b c : ℤ × ℕ)
  | tuple4 (a b c d : ℕ)
  | bytes (bs : List ℕ)
  deriving DecidableEq, Repr

/-- piexif GPS IFD tag numbers (values from the piexif library, which
follow the EXIF standard). -/
def GPSVersionID : ℕ := 0
def GPSLatitudeRef : ℕ := 1
def GPSLatitude : ℕ := 2
def GPSLongitudeRef : ℕ := 3
def GPSLongitude : ℕ := 4
def GPSAltitudeRef : ℕ := 5
def GPSAltitude : ℕ := 6

/-- piexif 0th/Exif/1st IFD tag numbers used by `process_image`. -/
def tagImageDescription : ℕ := 270
def tagDateTime : ℕ := 306
def tagTimeZoneOffset : ℕ := 34858
def tagDateTimeOriginal : ℕ := 36867
def tagXPKeywords : ℕ := 40094

/-- Function `create_gps_block(lat, lng, altitude)` from `tagger.py` (lines 56-93).
The Python `if altitude:` is a truthiness test: it fails both for `None`
and for `0.0`. -/
def create_gps_block (lat lng : ℚ) (altitude : Option ℚ) : List (ℕ × ExifVal) :=
  let lat_deg := to_deg lat ["S", "N"]
  let lng_deg := to_deg lng ["W", "E"]
  let exiv_lat := (change_to_rational (lat_deg.1 : ℚ),
                   change_to_rational (lat_deg.2.1 : ℚ),
                   change_to_rational lat_deg.2.2.1)
  let exiv_lng := (change_to_rational (lng_deg.1 : ℚ),
                   change_to_rational (lng_deg.2.1 : ℚ),
                   change_to_rational lng_deg.2.2.1)
  let gps_ifd : List (ℕ × ExifVal) :=
    [(GPSVersionID, .tuple4 2 0 0 0),
     (GPSAltitudeRef, .int 0),
     (GPSLatitudeRef, .str lat_deg.2.2.2),
     (GPSLatitude, .ratTriple exiv_lat.1 exiv_lat.2.1 exiv_lat.2.2),
     (GPSLongitudeRef, .str lng_deg.2.2.2),
     (GPSLongitude, .ratTriple exiv_lng.1 exiv_lng.2.1 exiv_lng.2.2)]
  match altitude with
  | some a =>
      if a ≠ 0 then gps_ifd ++ [(GPSAltitude, .rat (change_to_rational ((pyRound a : ℤ) : ℚ)))]
      else gps_ifd
  | none => gps_ifd

/-! Coordinate string parsing: `parse_coords` -/

/-- Read a maximal run of decimal digits, returning their values. -/
def readDigits : List Char → List ℕ × List Char
  | [] => ([], [])
  | c :: cs =>
    if c.isDigit then
      let (ds, rest) := readDigits cs
      ((c.toNat - 48) :: ds, rest)
    else ([], c :: cs)

/-- Value of a digit run, most significant digit first. -/
def digitsVal (ds : List ℕ) : ℕ := ds.foldl (fun a d => a * 10 + d) 0

/-- Optional exponent suffix of a float literal (`e±ddd`); `none` on
trailing garbage. -/
def parseExpPart : List Char → Option ℤ
  | [] => some 0
  | c :: cs =>
    if c = 'e' ∨ c = 'E' then
      let sgncs : ℤ × List Char :=
        match cs with
        | '+' :: r => (1, r)
        | '-' :: r => (-1, r)
        | r => (1, r)
      let (ds, rest) := readDigits sgncs.2
      if ds = [] ∨ rest ≠ [] then none
      else some (sgncs.1 * digitsVal ds)
    else none

/-- Models Python `float(s)` on finite decimal literals: optional sign,
digits with at most one point, optional exponent.  (`inf`, `nan` and
underscore digit separators are not modelled.)  Returns `none` where
Python raises `ValueError`. -/
def pyFloat (s : String) : Option ℚ :=
  let sgncs : ℚ × List Char :=
    match s.toList with
    | '+' :: r => (1, r)
    | '-' :: r => (-1, r)
    | r => (1, r)
  let (ip, cs1) := readDigits sgncs.2
  match cs1 with
  | '.' :: cs2 =>
      let (fp, rest) := readDigits cs2
      if ip = [] ∧ fp = [] then none
      else
        match parseExpPart rest with
        | none => none
        | some e =>
            some (sgncs.1 * ((digitsVal ip : ℚ) + (digitsVal fp : ℚ) / 10 ^ fp.length) * 10 ^ e)
  | rest =>
      if ip = [] then none
      else
        match parseExpPart rest with
        | none => none
        | some e => some (sgncs.1 * (digitsVal ip : ℚ) * 10 ^ e)

/-- Python `s.split(sep)` on the character list: always at least one
component, empty components preserved. -/
def pySplitChars (sep : Char) : List Char → List (List Char)
  | [] => [[]]
  | c :: cs =>
    let r := pySplitChars sep cs
    if c = sep then [] :: r
    else
      match r with
      | h :: t => (c :: h) :: t
      | [] => [[c]]

/-- Python `s.split(sep)` for a one-character separator. -/
def pySplit (s : String) (sep : Char) : List String :=
  (pySplitChars sep s.toList).map (fun cs => String.mk cs)

/-- Drop leading whitespace characters. -/
def dropWs : List Char → List Char
  | [] => []
  | c :: cs => if c.isWhitespace then dropWs cs else c :: cs

/-- Python `s.strip()`: remove leading and trailing whitespace. -/
def pyStrip (s : String) : String :=
  String.mk ((dropWs (dropWs s.toList).reverse).reverse)

/-- Python `float(x.strip())` applied to each component left to right, failing at
the first unparseable one (as the Python list comprehension does). -/
def floatList : List String → Option (List ℚ)
  | [] => some []
  | s :: rest =>
    match pyFloat (pyStrip s) with
    | none => none
    | some q =>
      match floatList rest with
      | none => none
      | some qs => some (q :: qs)

/-- The list comprehension `[float(x.strip()) for x in geo.split(",")]`
(line 117): `none` when any component fails to parse (Python raises
`ValueError` there). -/
def coordFloats (geo : String) : Option (List ℚ) :=
  floatList (pySplit geo ',')

/-- Function `parse_coords(geo)` from `tagger.py` (lines 109-122).  All failure
branches raise `ValueError` in Python: a component that is not a float, a
component count other than two (the tuple-unpacking error), or an
out-of-range latitude/longitude. -/
def parse_coords (geo : String) : Except String (ℚ × ℚ) :=
  match coordFloats geo with
  | none => .error "could not convert string to float"
  | some [lat, long] =>
      if lat > 90 ∨ lat < -90 then
        .error "latitude does not fall in the range (-90, 90)"
      else if long > 180 ∨ long < -180 then
        .error "longitude does not fall in the range (-180, 180)"
      else .ok (lat, long)
  | some _ => .error "wrong number of values to unpack"

/-! Timestamps -/

/-- A Python `datetime.datetime`: Gregorian fields plus an optional fixed
UTC offset in whole seconds (the `tzinfo`/`utcoffset` of the
fixed-offset timezones `datetime.fromisoformat` produces). -/
structure DateTime where
  year : ℕ
  month : ℕ
  day : ℕ
  hour : ℕ
  minute : ℕ
  second : ℕ
  tz : Option ℤ
  deriving DecidableEq, Repr

/-- Two-digit zero-padded decimal. -/
def pad2 (n : ℕ) : String := if n < 10 then "0" ++ toString n else toString n

/-- Four-digit zero-padded decimal. -/
def pad4 (n : ℕ) : String :=
  if n < 10 then "000" ++ toString n
  else if n < 100 then "00" ++ toString n
  else if n < 1000 then "0" ++ toString n
  else toString n

/-- Formatting `timestamp.strftime("%Y:%m:%d %H:%M:%S")` (line 160). -/
def strftimeExif (t : DateTime) : String :=
  pad4 t.year ++ ":" ++ pad2 t.month ++ ":" ++ pad2 t.day ++ " " ++
    pad2 t.hour ++ ":" ++ pad2 t.minute ++ ":" ++ pad2 t.second

/-- Exactly two decimal digits. -/
def parse2Digits : List Char → Option (ℕ × List Char)
  | c1 :: c2 :: cs =>
      if c1.isDigit ∧ c2.isDigit then
        some ((c1.toNat - 48) * 10 + (c2.toNat - 48), cs)
      else none
  | _ => none

/-- Exactly four decimal digits. -/
def parse4Digits : List Char → Option (ℕ × List Char)
  | c1 :: c2 :: c3 :: c4 :: cs =>
      if c1.isDigit ∧ c2.isDigit ∧ c3.isDigit ∧ c4.isDigit then
        some ((c1.toNat - 48) * 1000 + (c2.toNat - 48) * 100 +
              (c3.toNat - 48) * 10 + (c4.toNat - 48), cs)
      else none
  | _ => none

/-- Gregorian leap year. -/
def isLeap (y : ℕ) : Bool := (y % 4 == 0 && y % 100 != 0) || y % 400 == 0

/-- Days in a Gregorian month. -/
def daysInMonth (y m : ℕ) : ℕ :=
  if m = 2 then (if isLeap y then 29 else 28)
  else if m = 4 ∨ m = 6 ∨ m = 9 ∨ m = 11 then 30
  else 31

/-- Optional `±HH:MM` UTC-offset suffix; `none` on trailing garbage. -/
def parseOffset : List Char → Option (Option ℤ)
  | [] => some none
  | c :: cs =>
    if c = '+' ∨ c = '-' then
      match parse2Digits cs with
      | none => none
      | some (oh, cs1) =>
        match cs1 with
        | ':' :: cs2 =>
          match parse2Digits cs2 with
          | none => none
          | some (om, cs3) =>
            if cs3 = [] ∧ oh ≤ 23 ∧ om ≤ 59 then
              some (some ((if c = '-' then (-1 : ℤ) else 1) * ((oh : ℤ) * 3600 + om * 60)))
            else none
        | _ => none
    else none

/-- Time part `HH:MM[:SS]` followed by an optional offset. -/
def parseTimePart (cs : List Char) : Option (ℕ × ℕ × ℕ × Option ℤ) :=
  match parse2Digits cs with
  | none => none
  | some (h, cs1) =>
    match cs1 with
    | ':' :: cs2 =>
      match parse2Digits cs2 with
      | none => none
      | some (mi, cs3) =>
        match cs3 with
        | ':' :: cs4 =>
          match parse2Digits cs4 with
          | none => none
          | some (s, cs5) =>
            match parseOffset cs5 with
            | none => none
            | some off => if h ≤ 23 ∧ mi ≤ 59 ∧ s ≤ 59 then some (h, mi, s, off) else none
        | rest =>
          match parseOffset rest with
          | none => none
          | some off => if h ≤ 23 ∧ mi ≤ 59 then some (h, mi, 0, off) else none
    | _ => none

/-- Models `datetime.datetime.fromisoformat` (Python standard library) on
the basic `YYYY-MM-DD[*HH:MM[:SS]][±HH:MM]` grammar: any single character
as the date/time separator, no fractional seconds.  Returns `none` where
Python raises `ValueError`. -/
def fromisoformat (s : String) : Option DateTime :=
  match parse4Digits s.toList with
  | none => none
  | some (y, cs1) =>
    match cs1 with
    | '-' :: cs2 =>
      match parse2Digits cs2 with
      | none => none
      | some (mo, cs3) =>
        match cs3 with
        | '-' :: cs4 =>
          match parse2Digits cs4 with
          | none => none
          | some (d, cs5) =>
            if 1 ≤ y ∧ 1 ≤ mo ∧ mo ≤ 12 ∧ 1 ≤ d ∧ d ≤ daysInMonth y mo then
              match cs5 with
              | [] => some ⟨y, mo, d, 0, 0, 0, none⟩
              | _sep :: cs6 =>
                match parseTimePart cs6 with
                | none => none
                | some (h, mi, s, off) => some ⟨y, mo, d, h, mi, s, off⟩
            else none
        | _ => none
    | _ => none

/-! Metadata assembly: `process_image` -/

/-- The metadata container `piexif.load` returns: one ordered tag
dictionary per IFD group, plus the raw thumbnail bytes. -/
structure ExifDict where
  zeroth : List (ℕ × ExifVal)
  exif : List (ℕ × ExifVal)
  gps : List (ℕ × ExifVal)
  interop : List (ℕ × ExifVal)
  first : List (ℕ × ExifVal)
  thumbnail : List ℕ
  deriving DecidableEq, Repr

/-- Python dict assignment `d[k] = v`: replace in place if the key is
present, else append. -/
def insertTag (d : List (ℕ × ExifVal)) (k : ℕ) (v : ExifVal) : List (ℕ × ExifVal) :=
  if d.any (fun p => p.1 = k) then d.map (fun p => if p.1 = k then (k, v) else p)
  else d ++ [(k, v)]

/-- Python dict read access `d.get(k)` on a tag dictionary (`none` models
an absent key). -/
def lookupTag : List (ℕ × ExifVal) → ℕ → Option ExifVal
  | [], _ => none
  | p :: rest, k => if p.1 = k then some p.2 else lookupTag rest k

/-- Python `",".join(tags)` (line 171). -/
def joinComma : List String → String
  | [] => ""
  | [s] => s
  | s :: rest => s ++ "," ++ joinComma rest

/-- UTF-16-LE encoding of a string (`keywords.encode("utf-16le")`,
line 173), as a byte list. -/
def utf16le (s : String) : List ℕ :=
  s.toList.flatMap fun c =>
    let n := c.toNat
    if n < 65536 then [n % 256, n / 256]
    else
      let m := n - 65536
      let hi := 55296 + m / 1024
      let lo := 56320 + m % 1024
      [hi % 256, hi / 256, lo % 256, lo / 256]

/-- Function `process_image` (lines 125-176), restricted to its metadata-container
transformation: the surrounding I/O (`shutil.copy2`, `piexif.load`,
`piexif.dump`/`insert`) is modelled by taking the source image's loaded
EXIF container as input and returning the container that is serialized
into the destination file.  The Python truthiness tests `if geo:`,
`if desc:`, `if timestamp:`, `if tags:` and `if tzoffset:` are modelled
by their truth on each argument's type (a tuple or datetime is always
truthy; a string or list is truthy iff nonempty; a timedelta is truthy
iff nonzero). -/
def process_image (exif_dict : ExifDict) (desc : String) (timestamp : Option DateTime)
    (geo : Option (ℚ × ℚ)) (altitude : Option ℚ) (tags : Option (List String)) : ExifDict :=
  let d1 : ExifDict :=
    match geo with
    | some g => { exif_dict with gps := create_gps_block g.1 g.2 altitude }
    | none => exif_dict
  let d2 : ExifDict :=
    if desc ≠ "" then
      { d1 with zeroth := insertTag d1.zeroth tagImageDescription (.str desc) }
    else d1
  let d3 : ExifDict :=
    match timestamp with
    | some ts =>
        let exif_time := strftimeExif ts
        let a := { d2 with exif := insertTag d2.exif tagDateTimeOriginal (.str exif_time) }
        let b := { a with zeroth := insertTag a.zeroth tagDateTime (.str exif_time) }
        match ts.tz with
        | some off =>
            if off ≠ 0 then { b with first := insertTag b.first tagTimeZoneOffset (.int off) }
            else b
        | none => b
    | none => d2
  match tags with
  | some ts =>
      if ts ≠ [] then
        { d3 with zeroth :=
            insertTag d3.zeroth tagXPKeywords (.bytes (utf16le (joinComma ts))) }
      else d3
  | none => d3

/-! Driver: `main` -/

/-- The Python exceptions that can arise while `main` handles one log
line, plus the up-front path check failure. -/
inductive PyError
  | jsonDecodeError
  | keyError
  | valueError
  | fileNotFoundError
  deriving DecidableEq, Repr

/-- One line of the log file as seen by `json.loads`: either not valid
JSON, or a JSON object (modelled with string values, the type the
documented log format uses for all its fields). -/
inductive LogLine
  | notJson
  | obj (fields : List (String × String))
  deriving DecidableEq, Repr

/-- The record assembled from one parsed log line: the arguments `main`
passes to `process_image`. -/
structure Call where
  src : String
  dest : String
  desc : String
  timestamp : DateTime
  geo : Option (ℚ × ℚ)
  altitude : Option ℚ
  tags : Option (List String)
  deriving DecidableEq, Repr

/-- Python dict lookup `fields[k]` result (`none` models `KeyError`). -/
def lookupField (fields : List (String × String)) (k : String) : Option String :=
  (fields.find? (fun p => p.1 == k)).map Prod.snd

/-- Python `os.path.join(a, b)` for the relative-filename shapes the program
joins (no absolute-path second argument). -/
def osPathJoin (a b : String) : String :=
  if a = "" then b
  else if a.toList.getLast? = some '/' then a ++ b
  else a ++ "/" ++ b

/-- The body of the `try:` block in `main` (lines 204-217) on one line:
`json.loads`, the `logline[...]` field accesses, `fromisoformat`, and the
construction of the `process_image` arguments, each failing with the
exception Python raises at that step, in evaluation order. -/
def parseLine (src dest : String) (geo : Option (ℚ × ℚ)) (alt : Option ℚ)
    (tags : Option (List String)) : LogLine → Except PyError Call
  | .notJson => .error .jsonDecodeError
  | .obj fields =>
    match lookupField fields "date" with
    | none => .error .keyError
    | some dateStr =>
      match fromisoformat dateStr with
      | none => .error .valueError
      | some dt =>
        match lookupField fields "outfile" with
        | none => .error .keyError
        | some outfile =>
          match lookupField fields "description" with
          | none => .error .keyError
          | some desc =>
            .ok ⟨osPathJoin src outfile, osPathJoin dest outfile, desc, dt, geo, alt, tags⟩

/-- Loop `for line in fp:` of `main` (lines 203-219): each line's
`try:` body runs; a `JSONDecodeError` is caught (`except JSONDecodeError:
pass`) and the loop continues; any other exception propagates; a fully
parsed line is handed to `process_image` and the loop `break`s.  Returns
the list of `process_image` invocations the loop makes. -/
def runLines (src dest : String) (geo : Option (ℚ × ℚ)) (alt : Option ℚ)
    (tags : Option (List String)) : List LogLine → Except PyError (List Call)
  | [] => .ok []
  | l :: rest =>
    match parseLine src dest geo alt tags l with
    | .error .jsonDecodeError => runLines src dest geo alt tags rest
    | .error e => .error e
    | .ok c => .ok [c]

/-- Function `main` (lines 179-219): the three path-existence checks followed by
the log scan.  All destination-file writes happen inside `process_image`,
so the returned call list also records every write the run performs. -/
def main (srcExists destExists logExists : Bool) (src dest : String)
    (lines : List LogLine) (geo : Option (ℚ × ℚ)) (alt : Option ℚ)
    (tags : Option (List String)) : Except PyError (List Call) :=
  if !srcExists then .error .fileNotFoundError
  else if !destExists then .error .fileNotFoundError
  else if !logExists then .error .fileNotFoundError
  else runLines src dest geo alt tags lines

/-- Number of `process_image` invocations an outcome of `main` records. -/
def callCount : Except PyError (List Call) → ℕ
  | .error _ => 0
  | .ok cs => cs.length

end Tagger

namespace Tagger

/-! Helper lemmas -/

theorem pyInt_eq_floor {x : ℚ} (h : 0 ≤ x) : pyInt x = ⌊x⌋ := by
  simp [pyInt, not_lt.mpr h]

theorem pyRound_eq_floor_or_succ (x : ℚ) : pyRound x = ⌊x⌋ ∨ pyRound x = ⌊x⌋ + 1 := by
  unfold pyRound
  split
  · exact Or.inl rfl
  · split
    · exact Or.inr rfl
    · split
      · exact Or.inl rfl
      · exact Or.inr rfl

theorem pyRound_nonneg {x : ℚ} (h : 0 ≤ x) : 0 ≤ pyRound x := by
  rcases pyRound_eq_floor_or_succ x with h1 | h1 <;> rw [h1]
  · exact Int.floor_nonneg.mpr h
  · have := Int.floor_nonneg.mpr h
    omega

theorem pyRound_le {x : ℚ} {n : ℤ} (h : x < n) : pyRound x ≤ n := by
  have hf : ⌊x⌋ < n := Int.floor_lt.mpr (by exact_mod_cast h)
  rcases pyRound_eq_floor_or_succ x with h1 | h1 <;> rw [h1] <;> omega

theorem round5_nonneg {x : ℚ} (h : 0 ≤ x) : 0 ≤ round5 x := by
  unfold round5
  have : (0 : ℚ) ≤ (pyRound (x * 100000) : ℚ) := by
    exact_mod_cast pyRound_nonneg (by positivity)
  positivity

theorem round5_le {x : ℚ} {n : ℤ} (h : x < n) : round5 x ≤ n := by
  unfold round5
  have hlt : x * 100000 < ((n * 100000 : ℤ) : ℚ) := by
    push_cast
    nlinarith
  have hr : pyRound (x * 100000) ≤ n * 100000 := pyRound_le hlt
  have h2 : (pyRound (x * 100000) : ℚ) ≤ ((n * 100000 : ℤ) : ℚ) := by exact_mod_cast hr
  rw [div_le_iff₀ (by norm_num)]
  push_cast at h2 ⊢
  linarith

/-- Reformulation of `to_deg` with `Int.floor`/`Int.fract`: the truncations of the
source resolved to floors using that its intermediate values are
nonnegative. -/
theorem to_deg_eq (v : ℚ) (loc : List String) :
    to_deg v loc =
      (⌊|v|⌋, ⌊Int.fract |v| * 60⌋,
       round5 (Int.fract (Int.fract |v| * 60) * 60),
       if v < 0 then loc.getD 0 "" else if 0 < v then loc.getD 1 "" else "") := by
  simp only [to_deg]
  rw [pyInt_eq_floor (abs_nonneg v), Int.self_sub_floor]
  have ht : 0 ≤ Int.fract |v| * 60 := mul_nonneg (Int.fract_nonneg _) (by norm_num)
  rw [pyInt_eq_floor ht, Int.self_sub_floor]

/-- C1 (corrected).  For every `v ∈ [-180, 180]` and hemisphere labels
`(A, B)`, `to_deg v [A, B]` returns degree `⌊|v|⌋`, minute in `[0, 59]`,
second in `[0, 60]`, and hemisphere `A` when `v < 0`, `B` when `v > 0`,
`""` when `v = 0`.  The claim's bound "second in `[0, 60)`" does not hold:
rounding the seconds to 5 decimal places can produce exactly 60 (see the
counterexample); the bound is amended to the closed interval `[0, 60]`. -/
theorem to_deg_dms_spec (v : ℚ) (A B : String) (h1 : -180 ≤ v) (h2 : v ≤ 180) :
    (to_deg v [A, B]).1 = ⌊|v|⌋ ∧
    0 ≤ (to_deg v [A, B]).2.1 ∧ (to_deg v [A, B]).2.1 ≤ 59 ∧
    0 ≤ (to_deg v [A, B]).2.2.1 ∧ (to_deg v [A, B]).2.2.1 ≤ 60 ∧
    (to_deg v [A, B]).2.2.2 = if v < 0 then A else if 0 < v then B else "" := by
  rw [to_deg_eq]
  dsimp only
  refine ⟨rfl, ?_, ?_, ?_, ?_, ?_⟩
  · exact Int.floor_nonneg.mpr (mul_nonneg (Int.fract_nonneg _) (by norm_num))
  · have hlt : Int.fract |v| * 60 < ((60 : ℤ) : ℚ) := by
      have := Int.fract_lt_one |v|
      have := Int.fract_nonneg |v|
      push_cast
      nlinarith
    have := Int.floor_lt.mpr hlt
    omega
  · exact round5_nonneg (mul_nonneg (Int.fract_nonneg _) (by norm_num))
  · refine round5_le (n := 60) ?_
    have h := Int.fract_lt_one (Int.fract |v| * 60)
    have h0 := Int.fract_nonneg (Int.fract |v| * 60)
    push_cast
    nlinarith
  · simp [List.getD]

/-- Witness for `to_deg_dms_spec` at `v = 45.123`, labels `("S", "N")`. -/
theorem to_deg_dms_spec_witness :
    (to_deg (45.123 : ℚ) ["S", "N"]).1 = ⌊|(45.123 : ℚ)|⌋ ∧
    0 ≤ (to_deg (45.123 : ℚ) ["S", "N"]).2.1 ∧
    (to_deg (45.123 : ℚ) ["S", "N"]).2.1 ≤ 59 ∧
    0 ≤ (to_deg (45.123 : ℚ) ["S", "N"]).2.2.1 ∧
    (to_deg (45.123 : ℚ) ["S", "N"]).2.2.1 ≤ 60 ∧
    (to_deg (45.123 : ℚ) ["S", "N"]).2.2.2 =
      if (45.123 : ℚ) < 0 then "S" else if (0 : ℚ) < 45.123 then "N" else "" :=
  to_deg_dms_spec 45.123 "S" "N" (by norm_num) (by norm_num)

/-- C1 counterexample: at `v = 0.0166666666 ∈ [-180, 180]` the raw
seconds value is `59.99999976`, which `round(·, 5)` takes to exactly `60`,
refuting "second component lies in `[0, 60)`". -/
theorem to_deg_seconds_sixty_cex :
    (-180 : ℚ) ≤ 0.0166666666 ∧ (0.0166666666 : ℚ) ≤ 180 ∧
    (to_deg (0.0166666666 : ℚ) ["S", "N"]).2.2.1 = 60 ∧
    ¬ (to_deg (0.0166666666 : ℚ) ["S", "N"]).2.2.1 < 60 := by
  have habs : |(0.0166666666 : ℚ)| = 0.0166666666 := abs_of_pos (by norm_num)
  have hfr : Int.fract (0.0166666666 : ℚ) = 0.0166666666 := by
    rw [← Int.self_sub_floor]
    norm_num
  have hfr2 : Int.fract ((0.0166666666 : ℚ) * 60) = 0.999999996 := by
    rw [← Int.self_sub_floor]
    norm_num
  have hround : round5 ((0.999999996 : ℚ) * 60) = 60 := by
    simp only [round5, pyRound]
    norm_num
  have he : to_deg (0.0166666666 : ℚ) ["S", "N"] = (0, 0, 60, "N") := by
    rw [to_deg_eq, habs, hfr, hfr2, hround]
    norm_num
  rw [he]
  norm_num

/-- Evaluation rule: `change_to_rational` on a value given as a fraction already in lowest
terms returns exactly that numerator/denominator pair. -/
theorem change_to_rational_eq_of_coprime {q : ℚ} {a : ℤ} {b : ℕ} (hb : 0 < b)
    (hq : q = (a : ℚ) / (b : ℚ)) (h : Nat.Coprime a.natAbs b) :
    change_to_rational q = (a, b) := by
  subst hq
  have hb' : (0 : ℤ) < (b : ℤ) := by exact_mod_cast hb
  have h' : Nat.Coprime a.natAbs ((b : ℤ)).natAbs := by simpa using h
  have h1 := Rat.num_div_eq_of_coprime hb' h'
  have h2 := Rat.den_div_eq_of_coprime hb' h'
  have hcast : (((b : ℤ)) : ℚ) = ((b : ℕ) : ℚ) := by push_cast; ring
  rw [hcast] at h1 h2
  simp only [change_to_rational, Prod.mk.injEq]
  exact ⟨h1, by exact_mod_cast h2⟩

/-- C3 (confirmed).  For every finite decimal literal `m / 10 ^ e`,
`change_to_rational` returns a numerator/denominator pair that divides
back to exactly the decimal value (round-trip law), with positive
denominator and the fraction fully reduced (gcd 1, hence minimal); in
particular `change_to_rational 0.1 = (1, 10)`, the exact decimal `0.1`,
not a binary-float approximation. -/
theorem change_to_rational_decimal_exact :
    (∀ (m : ℤ) (e : ℕ),
      ((change_to_rational ((m : ℚ) / 10 ^ e)).1 : ℚ) /
          ((change_to_rational ((m : ℚ) / 10 ^ e)).2 : ℚ) = (m : ℚ) / 10 ^ e ∧
      Int.gcd (change_to_rational ((m : ℚ) / 10 ^ e)).1
          ((change_to_rational ((m : ℚ) / 10 ^ e)).2 : ℤ) = 1 ∧
      0 < (change_to_rational ((m : ℚ) / 10 ^ e)).2) ∧
    change_to_rational (0.1 : ℚ) = (1, 10) := by
  constructor
  · intro m e
    simp only [change_to_rational]
    refine ⟨Rat.num_div_den _, ?_, ((m : ℚ) / 10 ^ e).pos⟩
    have h := ((m : ℚ) / 10 ^ e).reduced
    simpa [Int.gcd] using h
  · exact change_to_rational_eq_of_coprime (b := 10) (by norm_num) (by norm_num) (by decide)

/-- C2 (confirmed).  `create_gps_block` stores the `GPSAltitude` field
iff the altitude argument is provided and non-zero (`None` and `0.0` both
omit it), with value `(round(altitude), 1)`; the latitude/longitude
reference letters come from the signs of `lat` and `lng`. -/
theorem create_gps_block_spec (lat lng : ℚ) (alt : Option ℚ) :
    (∀ a, alt = some a → a ≠ 0 →
      lookupTag (create_gps_block lat lng alt) GPSAltitude = some (.rat (pyRound a, 1))) ∧
    (alt = none → lookupTag (create_gps_block lat lng alt) GPSAltitude = none) ∧
    (alt = some 0 → lookupTag (create_gps_block lat lng alt) GPSAltitude = none) ∧
    lookupTag (create_gps_block lat lng alt) GPSLatitudeRef =
      some (.str (if lat < 0 then "S" else if 0 < lat then "N" else "")) ∧
    lookupTag (create_gps_block lat lng alt) GPSLongitudeRef =
      some (.str (if lng < 0 then "W" else if 0 < lng then "E" else "")) := by
  have hint : ∀ n : ℤ, change_to_rational ((n : ℤ) : ℚ) = (n, 1) := by
    intro n
    simp [change_to_rational, Rat.num_intCast, Rat.den_intCast]
  refine ⟨?_, ?_, ?_, ?_, ?_⟩
  · intro a ha hnz
    subst ha
    simp only [create_gps_block, if_pos hnz, hint]
    simp [lookupTag, GPSAltitude, GPSVersionID, GPSAltitudeRef, GPSLatitudeRef,
      GPSLatitude, GPSLongitudeRef, GPSLongitude]
  · intro h
    subst h
    simp [create_gps_block, lookupTag, GPSAltitude, GPSVersionID, GPSAltitudeRef,
      GPSLatitudeRef, GPSLatitude, GPSLongitudeRef, GPSLongitude]
  · intro h
    subst h
    simp [create_gps_block, lookupTag, GPSAltitude, GPSVersionID, GPSAltitudeRef,
      GPSLatitudeRef, GPSLatitude, GPSLongitudeRef, GPSLongitude]
  · simp only [create_gps_block, to_deg_eq]
    rcases alt with _ | a
    · simp [lookupTag, GPSVersionID, GPSAltitudeRef, GPSLatitudeRef, GPSLatitude,
        GPSLongitudeRef, GPSLongitude, GPSAltitude, List.getD]
    · by_cases hz : a = 0 <;>
        simp [hz, lookupTag, GPSVersionID, GPSAltitudeRef, GPSLatitudeRef, GPSLatitude,
          GPSLongitudeRef, GPSLongitude, GPSAltitude, List.getD]
  · simp only [create_gps_block, to_deg_eq]
    rcases alt with _ | a
    · simp [lookupTag, GPSVersionID, GPSAltitudeRef, GPSLatitudeRef, GPSLatitude,
        GPSLongitudeRef, GPSLongitude, GPSAltitude, List.getD]
    · by_cases hz : a = 0 <;>
        simp [hz, lookupTag, GPSVersionID, GPSAltitudeRef, GPSLatitudeRef, GPSLatitude,
          GPSLongitudeRef, GPSLongitude, GPSAltitude, List.getD]

/-- Witness for `create_gps_block_spec`: `lat = 45`, `lng = -93` with
altitude 250 (present, value `(250, 1)`, references `"N"`/`"W"`) and with
altitude 0 (the altitude field is omitted). -/
theorem create_gps_block_spec_witness :
    lookupTag (create_gps_block 45 (-93) (some 250)) GPSAltitude = some (.rat (250, 1)) ∧
    lookupTag (create_gps_block 45 (-93) (some 250)) GPSLatitudeRef = some (.str "N") ∧
    lookupTag (create_gps_block 45 (-93) (some 250)) GPSLongitudeRef = some (.str "W") ∧
    lookupTag (create_gps_block 45 (-93) (some 0)) GPSAltitude = none := by
  obtain ⟨h1, -, -, h4, h5⟩ := create_gps_block_spec 45 (-93) (some 250)
  obtain ⟨-, -, hz, -, -⟩ := create_gps_block_spec 45 (-93) (some 0)
  have h250 : pyRound (250 : ℚ) = 250 := by
    norm_num [pyRound]
  refine ⟨?_, ?_, ?_, hz rfl⟩
  · rw [h1 250 rfl (by norm_num), h250]
  · rw [h4]
    norm_num
  · rw [h5]
    norm_num

/-- Evaluation of the component floats of `"45.123,-123.12"`. -/
theorem coordFloats_eval_ok : coordFloats "45.123,-123.12" = some [45.123, -123.12] := by
  simp [coordFloats, floatList, pySplit, pySplitChars, pyStrip, dropWs, pyFloat,
    readDigits, digitsVal, parseExpPart]
  norm_num

/-- Evaluation of the component floats of `"91,0"`. -/
theorem coordFloats_eval_91 : coordFloats "91,0" = some [91, 0] := by
  simp [coordFloats, floatList, pySplit, pySplitChars, pyStrip, dropWs, pyFloat,
    readDigits, digitsVal, parseExpPart]

/-- Evaluation of the component floats of `"0,181"`. -/
theorem coordFloats_eval_181 : coordFloats "0,181" = some [0, 181] := by
  simp [coordFloats, floatList, pySplit, pySplitChars, pyStrip, dropWs, pyFloat,
    readDigits, digitsVal, parseExpPart]

/-- Evaluation of the component floats of `"1,2,3"`. -/
theorem coordFloats_eval_123 : coordFloats "1,2,3" = some [1, 2, 3] := by
  simp [coordFloats, floatList, pySplit, pySplitChars, pyStrip, dropWs, pyFloat,
    readDigits, digitsVal, parseExpPart]

/-- C7 (confirmed).  `parse_coords "45.123,-123.12"` returns the pair
`(45.123, -123.12)`; `"91,0"` and `"0,181"` raise `ValueError` range
errors; and in general every two-component input whose latitude is outside
`[-90, 90]` or longitude outside `[-180, 180]` is rejected with a
`ValueError` by the pure parser, before any conversion or file I/O. -/
theorem parse_coords_spec :
    parse_coords "45.123,-123.12" = .ok (45.123, -123.12) ∧
    parse_coords "91,0" = .error "latitude does not fall in the range (-90, 90)" ∧
    parse_coords "0,181" = .error "longitude does not fall in the range (-180, 180)" ∧
    (∀ (s : String) (lat lng : ℚ), coordFloats s = some [lat, lng] →
      lat > 90 ∨ lat < -90 ∨ lng > 180 ∨ lng < -180 →
      ∃ e, parse_coords s = .error e) := by
  refine ⟨?_, ?_, ?_, ?_⟩
  · simp only [parse_coords, coordFloats_eval_ok]
    norm_num
  · simp only [parse_coords, coordFloats_eval_91]
    norm_num
  · simp only [parse_coords, coordFloats_eval_181]
    norm_num
  · intro s lat lng h hr
    simp only [parse_coords, h]
    by_cases hlat : lat > 90 ∨ lat < -90
    · rw [if_pos hlat]
      exact ⟨_, rfl⟩
    · rw [if_neg hlat]
      have hlng : lng > 180 ∨ lng < -180 := by
        rcases hr with h1 | h1 | h1 | h1
        · exact absurd (Or.inl h1) hlat
        · exact absurd (Or.inr h1) hlat
        · exact Or.inl h1
        · exact Or.inr h1
      rw [if_pos hlng]
      exact ⟨_, rfl⟩

/-- Witness for `parse_coords_spec` at its quantified part: the
out-of-range longitude input `"0,181"`. -/
theorem parse_coords_spec_witness : ∃ e, parse_coords "0,181" = .error e :=
  parse_coords_spec.2.2.2 "0,181" 0 181 coordFloats_eval_181 (by norm_num)

/-- C9 (confirmed).  For every input string that does not split on
commas into exactly two float-parseable components, `parse_coords` raises
a `ValueError`; conversely every successful result comes from exactly such
a two-component parse and is that float pair. -/
theorem parse_coords_malformed_spec :
    (∀ s : String, (∀ lat lng : ℚ, coordFloats s ≠ some [lat, lng]) →
      ∃ e, parse_coords s = .error e) ∧
    (∀ (s : String) (p : ℚ × ℚ), parse_coords s = .ok p →
      ∃ lat lng : ℚ, coordFloats s = some [lat, lng] ∧ p = (lat, lng)) := by
  constructor
  · intro s h
    rcases hc : coordFloats s with _ | l
    · exact ⟨"could not convert string to float", by simp only [parse_coords, hc]⟩
    · rcases l with _ | ⟨a, rest⟩
      · exact ⟨"wrong number of values to unpack", by simp only [parse_coords, hc]⟩
      · rcases rest with _ | ⟨b, rest'⟩
        · exact ⟨"wrong number of values to unpack", by simp only [parse_coords, hc]⟩
        · rcases rest' with _ | ⟨c, rest''⟩
          · exact absurd hc (h a b)
          · exact ⟨"wrong number of values to unpack", by simp only [parse_coords, hc]⟩
  · intro s p h
    rcases hc : coordFloats s with _ | l
    · simp only [parse_coords, hc] at h
      exact Except.noConfusion h
    · rcases l with _ | ⟨a, rest⟩
      · simp only [parse_coords, hc] at h
        exact Except.noConfusion h
      · rcases rest with _ | ⟨b, rest'⟩
        · simp only [parse_coords, hc] at h
          exact Except.noConfusion h
        · rcases rest' with _ | ⟨c, rest''⟩
          · simp only [parse_coords, hc] at h
            split_ifs at h with hc1 hc2
            all_goals
              first
              | exact Except.noConfusion h
              | exact ⟨a, b, rfl, (show (a, b) = p by injection h).symm⟩
          · simp only [parse_coords, hc] at h
            exact Except.noConfusion h

/-- Witness for `parse_coords_malformed_spec` at the three-component
input `"1,2,3"`. -/
theorem parse_coords_malformed_spec_witness : ∃ e, parse_coords "1,2,3" = .error e :=
  parse_coords_malformed_spec.1 "1,2,3" (by
    intro lat lng hcontra
    rw [coordFloats_eval_123] at hcontra
    simp at hcontra)

end Tagger

namespace Tagger

theorem lookupTag_map_replace (d : List (ℕ × ExifVal)) (k : ℕ) (v : ExifVal) (t : ℕ)
    (h : t ≠ k) :
    lookupTag (d.map (fun p => if p.1 = k then (k, v) else p)) t = lookupTag d t := by
  induction d with
  | nil => rfl
  | cons p rest ih =>
    simp only [List.map_cons]
    by_cases hp : p.1 = k
    · rw [if_pos hp]
      simp only [lookupTag]
      rw [if_neg (fun hc : k = t => h hc.symm),
        if_neg (fun hc : p.1 = t => h (hp.symm.trans hc).symm), ih]
    · rw [if_neg hp]
      simp only [lookupTag, ih]

theorem lookupTag_map_replace_self (d : List (ℕ × ExifVal)) (k : ℕ) (v : ExifVal)
    (h : d.any (fun p => p.1 = k)) :
    lookupTag (d.map (fun p => if p.1 = k then (k, v) else p)) k = some v := by
  induction d with
  | nil => simp at h
  | cons p rest ih =>
    simp only [List.map_cons]
    by_cases hp : p.1 = k
    · rw [if_pos hp]
      simp only [lookupTag]
      simp
    · rw [if_neg hp]
      have h' : rest.any (fun p => p.1 = k) := by
        simpa [hp] using h
      simp only [lookupTag, if_neg hp]
      exact ih h'

theorem lookupTag_append_single_self (d : List (ℕ × ExifVal)) (k : ℕ) (v : ExifVal)
    (h : ¬ d.any (fun p => p.1 = k)) :
    lookupTag (d ++ [(k, v)]) k = some v := by
  induction d with
  | nil =>
    simp only [List.nil_append, lookupTag]
    simp
  | cons p rest ih =>
    simp only [List.any_cons, Bool.or_eq_true, decide_eq_true_eq, not_or] at h
    rw [List.cons_append]
    simp only [lookupTag]
    rw [if_neg h.1]
    exact ih (by simpa using h.2)

theorem lookupTag_append_single_ne (d : List (ℕ × ExifVal)) (k : ℕ) (v : ExifVal) (t : ℕ)
    (h : t ≠ k) :
    lookupTag (d ++ [(k, v)]) t = lookupTag d t := by
  induction d with
  | nil =>
    simp only [List.nil_append, lookupTag]
    rw [if_neg (fun hc : k = t => h hc.symm)]
  | cons p rest ih =>
    rw [List.cons_append]
    simp only [lookupTag]
    rw [ih]

theorem lookupTag_insertTag_self (d : List (ℕ × ExifVal)) (k : ℕ) (v : ExifVal) :
    lookupTag (insertTag d k v) k = some v := by
  unfold insertTag
  split
  · exact lookupTag_map_replace_self d k v (by assumption)
  · rename_i hno
    exact lookupTag_append_single_self d k v hno

theorem lookupTag_insertTag_ne (d : List (ℕ × ExifVal)) (k : ℕ) (v : ExifVal) (t : ℕ)
    (h : t ≠ k) :
    lookupTag (insertTag d k v) t = lookupTag d t := by
  unfold insertTag
  split
  · exact lookupTag_map_replace d k v t h
  · exact lookupTag_append_single_ne d k v t h

theorem pi_interop (base : ExifDict) (desc : String) (ts : Option DateTime)
    (geo : Option (ℚ × ℚ)) (alt : Option ℚ) (tags : Option (List String)) :
    (process_image base desc ts geo alt tags).interop = base.interop ∧
    (process_image base desc ts geo alt tags).thumbnail = base.thumbnail := by
  unfold process_image
  rcases geo with _ | g <;> rcases ts with _ | t <;> rcases tags with _ | l <;>
    dsimp only <;> (try rcases t.tz with _ | off) <;>
    constructor <;> (repeat' split) <;> rfl

theorem pi_gps (base : ExifDict) (desc : String) (ts : Option DateTime)
    (geo : Option (ℚ × ℚ)) (alt : Option ℚ) (tags : Option (List String)) :
    (process_image base desc ts geo alt tags).gps =
      (match geo with
       | some g => create_gps_block g.1 g.2 alt
       | none => base.gps) := by
  unfold process_image
  rcases geo with _ | g <;> rcases ts with _ | t <;> rcases tags with _ | l <;>
    dsimp only <;> (try rcases t.tz with _ | off) <;> (repeat' split) <;> rfl

end Tagger

namespace Tagger

theorem pi_zeroth_ne (base : ExifDict) (desc : String) (ts : Option DateTime)
    (geo : Option (ℚ × ℚ)) (alt : Option ℚ) (tags : Option (List String)) (t : ℕ)
    (h1 : t ≠ tagImageDescription) (h2 : t ≠ tagDateTime) (h3 : t ≠ tagXPKeywords) :
    lookupTag (process_image base desc ts geo alt tags).zeroth t = lookupTag base.zeroth t := by
  unfold process_image
  rcases geo with _ | g <;> rcases ts with _ | tm <;> rcases tags with _ | l <;>
    dsimp only <;> (try rcases tm.tz with _ | off) <;> (repeat' split) <;>
    simp [lookupTag_insertTag_ne, h1, h2, h3]

theorem pi_exif_ne (base : ExifDict) (desc : String) (ts : Option DateTime)
    (geo : Option (ℚ × ℚ)) (alt : Option ℚ) (tags : Option (List String)) (t : ℕ)
    (h1 : t ≠ tagDateTimeOriginal) :
    lookupTag (process_image base desc ts geo alt tags).exif t = lookupTag base.exif t := by
  unfold process_image
  rcases geo with _ | g <;> rcases ts with _ | tm <;> rcases tags with _ | l <;>
    dsimp only <;> (try rcases tm.tz with _ | off) <;> (repeat' split) <;>
    simp [lookupTag_insertTag_ne, h1]

theorem pi_first_ne (base : ExifDict) (desc : String) (ts : Option DateTime)
    (geo : Option (ℚ × ℚ)) (alt : Option ℚ) (tags : Option (List String)) (t : ℕ)
    (h1 : t ≠ tagTimeZoneOffset) :
    lookupTag (process_image base desc ts geo alt tags).first t = lookupTag base.first t := by
  unfold process_image
  rcases geo with _ | g <;> rcases ts with _ | tm <;> rcases tags with _ | l <;>
    dsimp only <;> (try rcases tm.tz with _ | off) <;> (repeat' split) <;>
    simp [lookupTag_insertTag_ne, h1]

theorem pi_zeroth_desc_absent (base : ExifDict) (ts : Option DateTime)
    (geo : Option (ℚ × ℚ)) (alt : Option ℚ) (tags : Option (List String)) :
    lookupTag (process_image base "" ts geo alt tags).zeroth tagImageDescription =
      lookupTag base.zeroth tagImageDescription := by
  unfold process_image
  rcases geo with _ | g <;> rcases ts with _ | tm <;> rcases tags with _ | l <;>
    dsimp only <;> (try rcases tm.tz with _ | off) <;> (repeat' split) <;>
    simp_all [lookupTag_insertTag_ne, tagImageDescription, tagDateTime, tagXPKeywords]

theorem pi_ts_absent (base : ExifDict) (desc : String)
    (geo : Option (ℚ × ℚ)) (alt : Option ℚ) (tags : Option (List String)) :
    lookupTag (process_image base desc none geo alt tags).zeroth tagDateTime =
      lookupTag base.zeroth tagDateTime ∧
    (process_image base desc none geo alt tags).exif = base.exif ∧
    (process_image base desc none geo alt tags).first = base.first := by
  unfold process_image
  rcases geo with _ | g <;> rcases tags with _ | l <;>
    dsimp only <;> refine ⟨?_, ?_, ?_⟩ <;> (repeat' split) <;>
    simp [lookupTag_insertTag_ne, tagImageDescription, tagDateTime, tagXPKeywords]

theorem pi_tags_absent (base : ExifDict) (desc : String) (ts : Option DateTime)
    (geo : Option (ℚ × ℚ)) (alt : Option ℚ) (tags : Option (List String))
    (h : tags = none ∨ tags = some []) :
    lookupTag (process_image base desc ts geo alt tags).zeroth tagXPKeywords =
      lookupTag base.zeroth tagXPKeywords := by
  rcases h with h | h <;> subst h <;> unfold process_image <;>
    rcases geo with _ | g <;> rcases ts with _ | tm <;>
    dsimp only <;> (try rcases tm.tz with _ | off) <;> (repeat' split) <;>
    simp_all [lookupTag_insertTag_ne, tagImageDescription, tagDateTime, tagXPKeywords]

theorem pi_exif_time (base : ExifDict) (desc : String) (tm : DateTime)
    (geo : Option (ℚ × ℚ)) (alt : Option ℚ) (tags : Option (List String)) :
    lookupTag (process_image base desc (some tm) geo alt tags).exif tagDateTimeOriginal =
      some (.str (strftimeExif tm)) := by
  unfold process_image
  rcases geo with _ | g <;> rcases tags with _ | l <;>
    dsimp only <;> rcases tm.tz with _ | off <;> (repeat' split) <;>
    simp [lookupTag_insertTag_self]

theorem pi_zeroth_time (base : ExifDict) (desc : String) (tm : DateTime)
    (geo : Option (ℚ × ℚ)) (alt : Option ℚ) (tags : Option (List String)) :
    lookupTag (process_image base desc (some tm) geo alt tags).zeroth tagDateTime =
      some (.str (strftimeExif tm)) := by
  unfold process_image
  rcases geo with _ | g <;> rcases tags with _ | l <;>
    dsimp only <;> rcases tm.tz with _ | off <;> (repeat' split) <;>
    simp [lookupTag_insertTag_ne, lookupTag_insertTag_self, tagDateTime, tagXPKeywords]

theorem pi_first_tz (base : ExifDict) (desc : String) (tm : DateTime)
    (geo : Option (ℚ × ℚ)) (alt : Option ℚ) (tags : Option (List String))
    (off : ℤ) (htz : tm.tz = some off) (hnz : off ≠ 0) :
    lookupTag (process_image base desc (some tm) geo alt tags).first tagTimeZoneOffset =
      some (.int off) := by
  unfold process_image
  rcases geo with _ | g <;> rcases tags with _ | l <;>
    dsimp only <;> rw [htz] <;> (repeat' split) <;>
    simp_all [lookupTag_insertTag_self]

end Tagger

namespace Tagger

/-- C8 (confirmed).  For every base metadata container and every request,
`process_image` never clears a field whose corresponding input is
absent/null: tags of the base container other than those written for
present inputs (description, timestamp, tags) keep their base values, the
Interop group and thumbnail are untouched, and the GPS group is unchanged
when `geo` is absent and fully replaced by `create_gps_block` when `geo`
is present. -/
theorem process_image_frame_spec (base : ExifDict) (desc : String) (ts : Option DateTime)
    (geo : Option (ℚ × ℚ)) (alt : Option ℚ) (tags : Option (List String)) :
    ((geo = none → (process_image base desc ts geo alt tags).gps = base.gps) ∧
     (∀ g, geo = some g →
        (process_image base desc ts geo alt tags).gps = create_gps_block g.1 g.2 alt)) ∧
    (∀ t, t ≠ tagImageDescription → t ≠ tagDateTime → t ≠ tagXPKeywords →
       lookupTag (process_image base desc ts geo alt tags).zeroth t = lookupTag base.zeroth t) ∧
    (desc = "" →
       lookupTag (process_image base desc ts geo alt tags).zeroth tagImageDescription =
         lookupTag base.zeroth tagImageDescription) ∧
    (ts = none →
       lookupTag (process_image base desc ts geo alt tags).zeroth tagDateTime =
           lookupTag base.zeroth tagDateTime ∧
       (process_image base desc ts geo alt tags).exif = base.exif ∧
       (process_image base desc ts geo alt tags).first = base.first) ∧
    (∀ t, t ≠ tagDateTimeOriginal →
       lookupTag (process_image base desc ts geo alt tags).exif t = lookupTag base.exif t) ∧
    (∀ t, t ≠ tagTimeZoneOffset →
       lookupTag (process_image base desc ts geo alt tags).first t = lookupTag base.first t) ∧
    (tags = none ∨ tags = some [] →
       lookupTag (process_image base desc ts geo alt tags).zeroth tagXPKeywords =
         lookupTag base.zeroth tagXPKeywords) ∧
    (process_image base desc ts geo alt tags).interop = base.interop ∧
    (process_image base desc ts geo alt tags).thumbnail = base.thumbnail := by
  refine ⟨⟨?_, ?_⟩, fun t h1 h2 h3 => pi_zeroth_ne base desc ts geo alt tags t h1 h2 h3,
    ?_, ?_, fun t h1 => pi_exif_ne base desc ts geo alt tags t h1,
    fun t h1 => pi_first_ne base desc ts geo alt tags t h1,
    fun h => pi_tags_absent base desc ts geo alt tags h,
    (pi_interop base desc ts geo alt tags).1, (pi_interop base desc ts geo alt tags).2⟩
  · intro h
    subst h
    rw [pi_gps]
  · intro g h
    subst h
    rw [pi_gps]
  · intro h
    subst h
    exact pi_zeroth_desc_absent base ts geo alt tags
  · intro h
    subst h
    exact pi_ts_absent base desc geo alt tags

/-- Witness for `process_image_frame_spec`: an all-absent request leaves
every group of a concrete base container unchanged. -/
theorem process_image_frame_spec_witness :
    (process_image ⟨[(42, ExifVal.int 7)], [(9, ExifVal.int 1)], [(1, ExifVal.str "N")],
        [], [], [3]⟩ "" none none none none).gps = [(1, ExifVal.str "N")] ∧
    lookupTag (process_image ⟨[(42, ExifVal.int 7)], [(9, ExifVal.int 1)], [(1, ExifVal.str "N")],
        [], [], [3]⟩ "" none none none none).zeroth 42 = some (ExifVal.int 7) ∧
    (process_image ⟨[(42, ExifVal.int 7)], [(9, ExifVal.int 1)], [(1, ExifVal.str "N")],
        [], [], [3]⟩ "" none none none none).exif = [(9, ExifVal.int 1)] ∧
    (process_image ⟨[(42, ExifVal.int 7)], [(9, ExifVal.int 1)], [(1, ExifVal.str "N")],
        [], [], [3]⟩ "" none none none none).thumbnail = [3] := by
  obtain ⟨⟨hg, -⟩, hz, -, ht, -, -, -, -, hth⟩ :=
    process_image_frame_spec ⟨[(42, ExifVal.int 7)], [(9, ExifVal.int 1)], [(1, ExifVal.str "N")],
      [], [], [3]⟩ "" none none none none
  refine ⟨(hg rfl).trans rfl, ?_, (ht rfl).2.1.trans rfl, hth.trans rfl⟩
  exact (hz 42 (by decide) (by decide) (by decide)).trans rfl

/-- C6 (corrected).  When a timestamp is present, `process_image` writes
`strftime("%Y:%m:%d %H:%M:%S")` (no timezone suffix) to both the Exif
`DateTimeOriginal` tag and the 0th `DateTime` tag; and when the timestamp
carries timezone information whose UTC offset is non-null AND NON-ZERO,
the offset in whole seconds is written to the 1st-IFD `TimeZoneOffset`
tag.  The claim's "non-null" alone is refuted by
`process_image_tz_zero_cex`: the code's `if tzoffset:` truthiness test
also skips an offset of exactly 0 seconds. -/
theorem process_image_timestamp_spec (base : ExifDict) (desc : String) (tm : DateTime)
    (geo : Option (ℚ × ℚ)) (alt : Option ℚ) (tags : Option (List String)) :
    lookupTag (process_image base desc (some tm) geo alt tags).exif tagDateTimeOriginal =
      some (.str (strftimeExif tm)) ∧
    lookupTag (process_image base desc (some tm) geo alt tags).zeroth tagDateTime =
      some (.str (strftimeExif tm)) ∧
    (∀ off, tm.tz = some off → off ≠ 0 →
      lookupTag (process_image base desc (some tm) geo alt tags).first tagTimeZoneOffset =
        some (.int off)) :=
  ⟨pi_exif_time base desc tm geo alt tags, pi_zeroth_time base desc tm geo alt tags,
   fun off h hnz => pi_first_tz base desc tm geo alt tags off h hnz⟩

/-- Witness for `process_image_timestamp_spec`: timestamp
`2023-06-01 10:00:00` at offset `-05:00` yields `"2023:06:01 10:00:00"`
in both time tags and `-18000` in the thumbnail-group offset tag. -/
theorem process_image_timestamp_spec_witness :
    lookupTag (process_image ⟨[], [], [], [], [], []⟩ "Park"
        (some ⟨2023, 6, 1, 10, 0, 0, some (-18000)⟩) none none none).exif tagDateTimeOriginal =
      some (ExifVal.str "2023:06:01 10:00:00") ∧
    lookupTag (process_image ⟨[], [], [], [], [], []⟩ "Park"
        (some ⟨2023, 6, 1, 10, 0, 0, some (-18000)⟩) none none none).zeroth tagDateTime =
      some (ExifVal.str "2023:06:01 10:00:00") ∧
    lookupTag (process_image ⟨[], [], [], [], [], []⟩ "Park"
        (some ⟨2023, 6, 1, 10, 0, 0, some (-18000)⟩) none none none).first tagTimeZoneOffset =
      some (ExifVal.int (-18000)) := by
  obtain ⟨h1, h2, h3⟩ := process_image_timestamp_spec ⟨[], [], [], [], [], []⟩ "Park"
    ⟨2023, 6, 1, 10, 0, 0, some (-18000)⟩ none none none
  have hs : strftimeExif ⟨2023, 6, 1, 10, 0, 0, some (-18000)⟩ = "2023:06:01 10:00:00" := rfl
  rw [hs] at h1 h2
  exact ⟨h1, h2, h3 (-18000) rfl (by decide)⟩

/-- C6 counterexample: a timestamp whose timezone information is present
and whose computed UTC offset is non-null but equals 0 (UTC itself, e.g.
`+00:00`).  The claim requires the offset to be written; the code's
`if tzoffset:` truthiness test skips it, so the `TimeZoneOffset` tag is
absent. -/
theorem process_image_tz_zero_cex :
    (⟨2023, 6, 1, 10, 0, 0, some 0⟩ : DateTime).tz = some 0 ∧
    lookupTag (process_image ⟨[], [], [], [], [], []⟩ ""
        (some ⟨2023, 6, 1, 10, 0, 0, some 0⟩) none none none).first tagTimeZoneOffset = none :=
  ⟨rfl, rfl⟩

end Tagger

namespace Tagger

/-- A log line's parse raises `JSONDecodeError` exactly when the line is
not valid JSON; missing fields and bad dates raise other exceptions. -/
theorem parseLine_jsonError_iff (src dest : String) (geo : Option (ℚ × ℚ)) (alt : Option ℚ)
    (tags : Option (List String)) (l : LogLine) :
    parseLine src dest geo alt tags l = .error .jsonDecodeError ↔ l = .notJson := by
  constructor
  · intro h
    cases l with
    | notJson => rfl
    | obj fields =>
      exfalso
      simp only [parseLine] at h
      repeat' split at h
      all_goals simp_all
  · intro h
    subst h
    rfl

/-- C4 (corrected).  While scanning the log file, a line that fails JSON
parsing is silently skipped and the scan continues with the remaining
lines; but a line that parses as JSON and then fails otherwise (missing
`date`/`outfile`/`description` key, unparseable date) raises an uncaught
`KeyError`/`ValueError` that aborts the scan — only `JSONDecodeError` is
caught, and a JSON-object line never raises `JSONDecodeError`.  The
claim's "otherwise malformed lines are also skipped" is refuted by
`main_malformed_abort_cex`. -/
theorem runLines_skip_spec :
    (∀ (src dest : String) (geo : Option (ℚ × ℚ)) (alt : Option ℚ)
       (tags : Option (List String)) (rest : List LogLine),
      runLines src dest geo alt tags (LogLine.notJson :: rest) =
        runLines src dest geo alt tags rest) ∧
    (∀ (src dest : String) (geo : Option (ℚ × ℚ)) (alt : Option ℚ)
       (tags : Option (List String)) (l : LogLine) (rest : List LogLine) (e : PyError),
      parseLine src dest geo alt tags l = .error e → e ≠ .jsonDecodeError →
      runLines src dest geo alt tags (l :: rest) = .error e) ∧
    (∀ (src dest : String) (geo : Option (ℚ × ℚ)) (alt : Option ℚ)
       (tags : Option (List String)) (l : LogLine),
      parseLine src dest geo alt tags l = .error .jsonDecodeError ↔ l = .notJson) := by
  refine ⟨fun src dest geo alt tags rest => rfl, ?_, parseLine_jsonError_iff⟩
  intro src dest geo alt tags l rest e h hne
  simp only [runLines]
  rw [h]
  rcases e with _ | _ | _ | _
  · exact absurd rfl hne
  · rfl
  · rfl
  · rfl

/-- Witness for `runLines_skip_spec`: a non-JSON line is skipped; a
valid-JSON line missing the `date` field aborts with `KeyError`. -/
theorem runLines_skip_spec_witness :
    runLines "s" "d" none none none [LogLine.notJson] = runLines "s" "d" none none none [] ∧
    runLines "s" "d" none none none
        [LogLine.obj [("outfile", "a.jpg"), ("description", "x")]] = .error .keyError :=
  ⟨runLines_skip_spec.1 "s" "d" none none none [],
   runLines_skip_spec.2.1 "s" "d" none none none
     (LogLine.obj [("outfile", "a.jpg"), ("description", "x")]) [] .keyError rfl (by decide)⟩

/-- C4 counterexample: a log whose first line is valid JSON without a
`date` field, followed by a fully valid line.  The claim says the
malformed line is silently skipped and the scan continues; instead `main`
aborts with an uncaught `KeyError` and processes nothing. -/
theorem main_malformed_abort_cex :
    main true true true "s" "d"
      [LogLine.obj [("outfile", "a.jpg"), ("description", "x")],
       LogLine.obj [("date", "2023-06-01T10:00:00-05:00"), ("outfile", "a.jpg"),
         ("description", "Park")]]
      none none none = .error .keyError ∧
    callCount (main true true true "s" "d"
      [LogLine.obj [("outfile", "a.jpg"), ("description", "x")],
       LogLine.obj [("date", "2023-06-01T10:00:00-05:00"), ("outfile", "a.jpg"),
         ("description", "Park")]]
      none none none) = 0 :=
  ⟨rfl, rfl⟩

/-- C5 (confirmed).  The driver loop invokes `process_image` at most once
per run, in every outcome; and whenever the run returns normally having
processed a record, that record comes from the first line of the log that
parses successfully, every earlier line having been skipped as a JSON
decode failure, and no further record is processed. -/
theorem main_single_process_spec :
    (∀ (src dest : String) (geo : Option (ℚ × ℚ)) (alt : Option ℚ)
       (tags : Option (List String)) (lines : List LogLine),
      callCount (runLines src dest geo alt tags lines) ≤ 1) ∧
    (∀ (src dest : String) (geo : Option (ℚ × ℚ)) (alt : Option ℚ)
       (tags : Option (List String)) (lines : List LogLine) (c : Call) (cs : List Call),
      runLines src dest geo alt tags lines = .ok (c :: cs) →
      cs = [] ∧ ∃ pre l post, lines = pre ++ l :: post ∧
        (∀ x ∈ pre, parseLine src dest geo alt tags x = .error .jsonDecodeError) ∧
        parseLine src dest geo alt tags l = .ok c) := by
  constructor
  · intro src dest geo alt tags lines
    induction lines with
    | nil => simp [runLines, callCount]
    | cons l rest ih =>
      simp only [runLines]
      rcases h : parseLine src dest geo alt tags l with e | c
      · rcases e with _ | _ | _ | _
        · exact ih
        · simp [callCount]
        · simp [callCount]
        · simp [callCount]
      · simp [callCount]
  · intro src dest geo alt tags lines
    induction lines with
    | nil =>
      intro c cs h
      exact absurd h (by simp [runLines])
    | cons l rest ih =>
      intro c cs h
      simp only [runLines] at h
      rcases hp : parseLine src dest geo alt tags l with e | c'
      · rw [hp] at h
        rcases e with _ | _ | _ | _
        · obtain ⟨hcs, pre, l', post, heq, hpre, hok⟩ := ih c cs h
          refine ⟨hcs, LogLine.notJson :: pre, l', post, ?_, ?_, hok⟩
          · have hl : l = LogLine.notJson :=
              (parseLine_jsonError_iff src dest geo alt tags l).mp hp
            rw [hl, heq]
            rfl
          · intro x hx
            rcases List.mem_cons.mp hx with hx | hx
            · subst hx
              rfl
            · exact hpre x hx
        · exact Except.noConfusion h
        · exact Except.noConfusion h
        · exact Except.noConfusion h
      · rw [hp] at h
        have hc : c' = c ∧ cs = [] := by
          have := Except.ok.inj h
          constructor
          · exact (List.cons.inj this).1
          · exact (List.cons.inj this).2.symm
        refine ⟨hc.2, [], l, rest, rfl, by simp, ?_⟩
        rw [hp, hc.1]
  
/-- Witness for `main_single_process_spec`: a non-JSON first line
followed by a valid line; exactly the valid line is processed. -/
theorem main_single_process_spec_witness :
    ([] : List Call) = [] ∧ ∃ pre l post,
      [LogLine.notJson,
       LogLine.obj [("date", "2023-06-01T10:00:00-05:00"), ("outfile", "a.jpg"),
         ("description", "Park")]] = pre ++ l :: post ∧
      (∀ x ∈ pre, parseLine "s" "d" none none none x = .error .jsonDecodeError) ∧
      parseLine "s" "d" none none none l =
        .ok ⟨"s/a.jpg", "d/a.jpg", "Park", ⟨2023, 6, 1, 10, 0, 0, some (-18000)⟩,
          none, none, none⟩ :=
  main_single_process_spec.2 "s" "d" none none none
    [LogLine.notJson,
     LogLine.obj [("date", "2023-06-01T10:00:00-05:00"), ("outfile", "a.jpg"),
       ("description", "Park")]]
    ⟨"s/a.jpg", "d/a.jpg", "Park", ⟨2023, 6, 1, 10, 0, 0, some (-18000)⟩, none, none, none⟩
    [] rfl

/-- C10 (confirmed).  If the source, destination and logfile paths all
exist but no line of the log parses as JSON, `main` returns normally with
an empty call list: `process_image` is invoked zero times, and since all
destination-file writes happen inside `process_image`, no destination
file is written. -/
theorem main_no_json_spec (src dest : String) (lines : List LogLine)
    (geo : Option (ℚ × ℚ)) (alt : Option ℚ) (tags : Option (List String))
    (h : ∀ l ∈ lines, l = LogLine.notJson) :
    main true true true src dest lines geo alt tags = .ok [] ∧
    callCount (main true true true src dest lines geo alt tags) = 0 := by
  have hrun : runLines src dest geo alt tags lines = .ok [] := by
    induction lines with
    | nil => rfl
    | cons l rest ih =>
      have hl := h l (by simp)
      subst hl
      have step : runLines src dest geo alt tags (LogLine.notJson :: rest) =
          runLines src dest geo alt tags rest := rfl
      rw [step]
      exact ih (fun x hx => h x (by simp [hx]))
  refine ⟨?_, ?_⟩ <;> simp [main, hrun, callCount]

/-- Witness for `main_no_json_spec` on a two-line log of non-JSON
lines. -/
theorem main_no_json_spec_witness :
    main true true true "s" "d" [LogLine.notJson, LogLine.notJson] none none none = .ok [] ∧
    callCount (main true true true "s" "d" [LogLine.notJson, LogLine.notJson]
      none none none) = 0 :=
  main_no_json_spec "s" "d" [LogLine.notJson, LogLine.notJson] none none none
    (by intro l hl; rcases List.mem_cons.mp hl with h | h; · exact h;
        · simpa using h)

end Tagger
